import Mathlib

set_option maxRecDepth 100000

/-!
Verification of `bot.py` (Telegram image-resizer bot).

The development shallowly embeds the handler and webhook logic of
`src/bot.py`.  External collaborators (the Telegram client, PIL, Flask)
are modelled as explicit function parameters (`fetch`, `decode`, the
resize/save/send operations, the JSON parser and update decoder), so a
handler is a pure function from an inbound message and the per-user
session state to a result recording the new session state, the replies
sent, the arguments of every call to the PIL resize operation, and
whether an exception escaped the handler.

The height computation on line 117 of bot.py,
`int(img.height * (width / img.width))`, is performed in Python floats
(IEEE-754 binary64).  It is embedded exactly, over integers: a positive
double is represented as a pair `(m, e)` of mantissa and binary exponent
with value `m * 2 ^ e`, and each of the two rounding steps (the division
`width / img.width` and the product with `img.height`) performs IEEE
round-to-nearest, ties-to-even.  The model covers the full normal range
(no overflow/subnormal handling, which is unreachable for image
dimensions and widths in [10, 12000]).
-/

/-! ### Exact model of the binary64 computation on bot.py line 117 -/

/-- Fuel-driven binary logarithm: for `0 < n < 2 ^ fuel`,
`log2fuel fuel n = ⌊log₂ n⌋`.  Structural recursion so that the kernel
can evaluate it. -/
def log2fuel : ℕ → ℕ → ℕ
  | 0, _ => 0
  | fuel + 1, n => if 2 ≤ n then log2fuel fuel (n / 2) + 1 else 0

/-- `⌊log₂ (a / b)⌋` for positive naturals with `a * 2 ^ 128 ≥ b`
(all quotients arising in the program are far inside this range). -/
def ilog2 (a b : ℕ) : ℤ :=
  (log2fuel 512 (a * 2 ^ 128 / b) : ℤ) - 128

/-- Round the real quotient `A / B` to the nearest integer,
ties to even: the IEEE-754 mantissa rounding step. -/
def roundMant (A B : ℕ) : ℕ :=
  let m0 := A / B
  let r := A % B
  if 2 * r < B then m0
  else if B < 2 * r then m0 + 1
  else if m0 % 2 = 0 then m0 else m0 + 1

/-- Round the positive rational `a / b` to the nearest binary64 value,
returned as a mantissa/exponent pair `(m, e)` of value `m * 2 ^ e`
with `m` of 53 bits. -/
def roundQ (a b : ℕ) : ℕ × ℤ :=
  (if 0 ≤ (52 : ℤ) - ilog2 a b then roundMant (a * 2 ^ ((52 : ℤ) - ilog2 a b).toNat) b
   else roundMant a (b * 2 ^ (-((52 : ℤ) - ilog2 a b)).toNat),
   ilog2 a b - 52)

/-- The binary64 product of the integer `H` (exact for `H < 2 ^ 53`,
true of any image height) with the double `(m, e)`: the value
`H * m * 2 ^ e` rounded once, as in Python's `int * float`. -/
def roundMulNat (H : ℕ) : ℕ × ℤ → ℕ × ℤ
  | (m, e) =>
    if 0 ≤ e then roundQ (H * m * 2 ^ e.toNat) 1
    else roundQ (H * m) (2 ^ (-e).toNat)

/-- Truncation of a nonnegative double to an integer: Python `int(x)`. -/
def dfloor : ℕ × ℤ → ℕ
  | (m, e) => if 0 ≤ e then m * 2 ^ e.toNat else m / 2 ^ (-e).toNat

/-- bot.py line 117: `int(img.height * (width / img.width))`,
computed exactly as Python does in binary64. -/
def heightRaw (W H w : ℕ) : ℕ :=
  dfloor (roundMulNat H (roundQ w W))

/-- bot.py lines 117-119: the raw truncated height, clamped to ≥ 1. -/
def heightCalc (W H w : ℕ) : ℕ :=
  if heightRaw W H w < 1 then 1 else heightRaw W H w

/-! ### Data model -/

/-- An abstract reference to a Telegram file (photo size or document). -/
structure FileRef where
  id : ℕ
deriving DecidableEq, Repr

/-- Abstract downloaded/encoded byte data. -/
structure ByteData where
  id : ℕ
deriving DecidableEq, Repr

/-- A decoded PIL image: dimensions and the format PIL detected
(`img.format`, which may be `None`).  Pixel content is irrelevant to
every claim and is not modelled. -/
structure Img where
  width : ℕ
  height : ℕ
  format : Option String
deriving DecidableEq, Repr

/-- PIL `img.copy()`: an independent image with the same content.
Images are values in this embedding, so a copy is the image itself. -/
def Img.copy (i : Img) : Img := i

/-- `context.user_data` as used by bot.py: the two keys
`"last_image"` and `"last_image_format"`. -/
structure Session where
  last_image : Option Img
  last_image_format : Option String
deriving DecidableEq, Repr

/-- A message sent back to the user. -/
inductive Reply where
  | text (s : String)
  | document (filename : String) (caption : String) (img : Img)
deriving DecidableEq, Repr

/-- Whether the handler returned normally or let an exception
propagate to its caller. -/
inductive Outcome where
  | ok
  | raised
deriving DecidableEq, Repr

/-- Result of running one handler: the user's session afterwards, the
replies sent, the argument list of every `Image.resize` call made
(image, target width, target height), and whether an exception escaped
the handler. -/
structure HResult where
  session : Session
  replies : List Reply
  resizeCalls : List (Img × ℕ × ℕ)
  outcome : Outcome
deriving DecidableEq, Repr

/-- A Telegram document attachment (bot.py reads `mime_type` and
downloads its file). -/
structure TGDocument where
  mime_type : Option String
  fileRef : FileRef
deriving DecidableEq, Repr

/-- The parts of an image-bearing message that bot.py reads:
the list of photo sizes (`message.photo`, `[-1]` is the largest) and
the optional document. -/
structure PhotoMessage where
  photo : List FileRef
  document : Option TGDocument
deriving DecidableEq, Repr

/-- The replied-to message of a text reply.  bot.py only tests its
presence (line 101); `fromBot` records whether the Telegram message
being replied to was sent by the bot, which bot.py never inspects. -/
structure RepliedMsg where
  fromBot : Bool
deriving DecidableEq, Repr

/-- The parts of a text message that bot.py reads. -/
structure TextMessage where
  text : String
  reply_to_message : Option RepliedMsg
deriving DecidableEq, Repr

/-- Python truthiness of an optional string (`None` and `""` are
falsy), as used on bot.py line 69 (`document.mime_type`) and
line 88 (`img.format or "JPEG"`). -/
def truthyStr : Option String → Bool
  | none => false
  | some s => s ≠ ""

/-- Python `a or d` for an optional string `a`: bot.py line 88. -/
def pyOr (o : Option String) (d : String) : String :=
  match o with
  | some s => if s = "" then d else s
  | none => d

/-! ### Image-received handler (bot.py lines 63-95) -/

/-- bot.py lines 73-95, after an attachment reference was selected:
fetch the file (`get_file` / `download_to_memory`, lines 73-77 — thrown
errors are NOT caught and propagate out of the handler), decode it
(lines 79-85, wrapped in try/except), then store the copy and format
in the session (lines 87-88) and confirm (lines 90-95). -/
def fetchDecodeStore (fetch : FileRef → Except String ByteData)
    (decode : ByteData → Except String Img)
    (ud : Session) (ref : FileRef) : HResult :=
  match fetch ref with
  | .error _ => ⟨ud, [], [], .raised⟩
  | .ok bytes =>
    match decode bytes with
    | .error _ => ⟨ud, [Reply.text "Sorry, I couldn't process this image 😔"], [], .ok⟩
    | .ok img =>
      ⟨⟨some img.copy, some (pyOr img.format "JPEG")⟩,
       [Reply.text ("Image received! Original size: <b>" ++ toString img.width ++ " × "
          ++ toString img.height
          ++ "</b>\n\nReply to <b>this</b> message with the desired <b>width</b> in pixels.\n(recommended: 10–8000)")],
       [], .ok⟩

/-- bot.py lines 63-95 (`handle_photo`).  Lines 66-71: pick the last
photo size if any, else require a document whose truthy `mime_type`
starts with `"image/"`; otherwise reply with a rejection. -/
def handle_photo (fetch : FileRef → Except String ByteData)
    (decode : ByteData → Except String Img)
    (message : PhotoMessage) (ud : Session) : HResult :=
  match message.photo.getLast?, message.document with
  | some p, _ => fetchDecodeStore fetch decode ud p
  | none, some d =>
    if truthyStr d.mime_type && (d.mime_type.getD "").startsWith "image/" then
      fetchDecodeStore fetch decode ud d.fileRef
    else ⟨ud, [Reply.text "Please send a photo or an image file."], [], .ok⟩
  | none, none => ⟨ud, [Reply.text "Please send a photo or an image file."], [], .ok⟩

/-! ### Integer parsing (bot.py line 110: `int(message.text.strip())`) -/

/-- The whitespace characters Python `str.strip()` removes
(ASCII; exotic Unicode whitespace is out of scope). -/
def isPySpace (c : Char) : Bool :=
  c = ' ' || c = '\t' || c = '\n' || c = '\r' || c = '\x0b' || c = '\x0c'

/-- `str.strip()` on a character list. -/
def stripChars (l : List Char) : List Char :=
  ((l.dropWhile isPySpace).reverse.dropWhile isPySpace).reverse

/-- After the first digit of a Python integer literal: digits with
single underscores allowed between digits. -/
def digitsRest : List Char → Bool
  | [] => true
  | '_' :: c :: rest => c.isDigit && digitsRest rest
  | ['_'] => false
  | c :: rest => c.isDigit && digitsRest rest

/-- A nonempty Python digit run: `digit (('_')? digit)*`. -/
def digitsOk : List Char → Bool
  | [] => false
  | c :: rest => c.isDigit && digitsRest rest

/-- Numeric value of a digit run with underscores removed. -/
def digitsVal (l : List Char) : ℕ :=
  (l.filter fun c => c ≠ '_').foldl (fun a c => a * 10 + (c.toNat - '0'.toNat)) 0

/-- Python `int(s)` on the (stripped) text: optional sign, then a
digit run; anything else raises `ValueError`, modelled as `none`.
(ASCII digits; Python additionally accepts Unicode digits.) -/
def parseIntPy (s : String) : Option ℤ :=
  match stripChars s.toList with
  | '+' :: rest => if digitsOk rest then some (digitsVal rest : ℕ) else none
  | '-' :: rest => if digitsOk rest then some (-(digitsVal rest : ℕ) : ℤ) else none
  | l => if digitsOk l then some (digitsVal l : ℕ) else none

/-! ### Resize-request handler (bot.py lines 98-142) -/

/-- bot.py lines 98-142 (`handle_resize_request`).

* lines 101-102: not a reply to anything → silently return;
* lines 104-107: no pending image → "No recent image found";
* lines 109-115: parse failure or width outside [10, 12000] → range
  message, session untouched;
* lines 117-119: compute the clamped binary64 height;
* lines 121-126: `Image.resize` (call recorded) — failure is caught
  and reported, session untouched;
* lines 128-132: `resized.save` — NOT wrapped, a failure propagates;
* lines 134-138: `reply_document` — NOT wrapped, a failure propagates
  before the cleanup runs;
* lines 140-142: cleanup pops both session keys. -/
def handle_resize_request (rz : Img → ℕ → ℕ → Except String Img)
    (sv : Img → String → Except String ByteData)
    (sd : ByteData → Except String Unit)
    (message : TextMessage) (ud : Session) : HResult :=
  match message.reply_to_message with
  | none => ⟨ud, [], [], .ok⟩
  | some _ =>
    match ud.last_image with
    | none => ⟨ud, [Reply.text "No recent image found. Please send a photo first."], [], .ok⟩
    | some img =>
      match parseIntPy message.text with
      | none => ⟨ud, [Reply.text "Please send a number between 10 and 12000."], [], .ok⟩
      | some width =>
        if width < 10 ∨ width > 12000 then
          ⟨ud, [Reply.text "Please send a number between 10 and 12000."], [], .ok⟩
        else
          let wN := width.toNat
          let height := heightCalc img.width img.height wN
          match rz img wN height with
          | .error _ => ⟨ud, [Reply.text "Sorry, resizing failed 😓"], [(img, wN, height)], .ok⟩
          | .ok resized =>
            let fmt := ud.last_image_format.getD "JPEG"
            match sv resized fmt with
            | .error _ => ⟨ud, [], [(img, wN, height)], .raised⟩
            | .ok bytes =>
              match sd bytes with
              | .error _ => ⟨ud, [], [(img, wN, height)], .raised⟩
              | .ok _ =>
                ⟨⟨none, none⟩,
                 [Reply.document ("resized." ++ fmt.toLower)
                    ("Resized to " ++ toString wN ++ " × " ++ toString height) resized],
                 [(img, wN, height)], .ok⟩

/-! ### Webhook endpoint (bot.py lines 154-206) -/

/-- The parsed JSON body; bot.py only uses its Python truthiness
(line 160) before handing it to `Update.de_json`. -/
structure JsonData where
  truthy : Bool
  id : ℕ
deriving DecidableEq, Repr

/-- A decoded Telegram update. -/
structure UpdateV where
  id : ℕ
deriving DecidableEq, Repr

/-- Result of `future.result(timeout=60)` on line 176: normal
completion, `TimeoutError`, or any other exception. -/
inductive ProcOutcome where
  | ok
  | timeout
  | exn
deriving DecidableEq, Repr

/-- Observable result of one webhook POST: HTTP status, whether a
coroutine was submitted to the event loop, and whether a best-effort
error notification was attempted. -/
structure WebhookResult where
  status : ℕ
  submitted : Bool
  notified : Bool
deriving DecidableEq, Repr

/-- bot.py lines 154-206 (`webhook`).

* lines 156-157: non-JSON content type → 400, nothing processed;
* lines 159-161: `get_json(silent=True)` returned `None` or a falsy
  value → 200, nothing submitted;
* lines 163-165: `Update.de_json` returned no update → 200, nothing
  submitted;
* lines 167-206: submit to the loop and wait; on completion, on
  `TimeoutError` (lines 180-191) and on any other exception
  (lines 193-204) the function falls through to line 206 and
  returns 200. -/
def webhook (contentType : Option String)
    (jsonBody : Option JsonData)
    (de_json : JsonData → Option UpdateV)
    (process : UpdateV → ProcOutcome) : WebhookResult :=
  if contentType ≠ some "application/json" then ⟨400, false, false⟩
  else
    match jsonBody with
    | none => ⟨200, false, false⟩
    | some j =>
      if !j.truthy then ⟨200, false, false⟩
      else
        match de_json j with
        | none => ⟨200, false, false⟩
        | some u =>
          match process u with
          | .ok => ⟨200, true, false⟩
          | .timeout => ⟨200, true, true⟩
          | .exn => ⟨200, true, true⟩

/-! ### Concrete collaborator instances used by witnesses -/

/-- A resize operation that succeeds, returning a fresh image with the
requested dimensions (as PIL's `Image.resize` does). -/
def rzOk : Img → ℕ → ℕ → Except String Img :=
  fun i w h => .ok ⟨w, h, i.format⟩

/-- An encode (`save`) operation that succeeds. -/
def svOk : Img → String → Except String ByteData :=
  fun _ _ => .ok ⟨0⟩

/-- A send (`reply_document`) operation that succeeds. -/
def sdOk : ByteData → Except String Unit :=
  fun _ => .ok ()

/-! ### Correctness of the binary64 model on exactly representable values -/

/-- `log2fuel` computes the floor of the binary logarithm whenever the
fuel bounds the input. -/
theorem log2fuel_spec (fuel : ℕ) : ∀ n : ℕ, 0 < n → n < 2 ^ fuel →
    2 ^ log2fuel fuel n ≤ n ∧ n < 2 ^ (log2fuel fuel n + 1) := by
  induction fuel with
  | zero =>
    intro n h0 hn
    simp at hn
    omega
  | succ f ih =>
    intro n h0 hn
    by_cases h2 : 2 ≤ n
    · have hm0 : 0 < n / 2 := Nat.div_pos h2 (by norm_num)
      have hmlt : n / 2 < 2 ^ f := by
        rw [pow_succ] at hn
        omega
      obtain ⟨l, u⟩ := ih (n / 2) hm0 hmlt
      have e1 : log2fuel (f + 1) n = log2fuel f (n / 2) + 1 := by
        simp [log2fuel, h2]
      rw [e1]
      set k := log2fuel f (n / 2) with hk
      have p1 : (2:ℕ) ^ (k + 1) = 2 ^ k * 2 := pow_succ 2 k
      have p2 : (2:ℕ) ^ (k + 1 + 1) = 2 ^ (k + 1) * 2 := pow_succ 2 (k + 1)
      omega
    · have e1 : log2fuel (f + 1) n = 0 := by
        simp [log2fuel, h2]
      rw [e1]
      have hn1 : n = 1 := by omega
      subst hn1
      norm_num

/-- The floor of the binary logarithm is unique. -/
theorem log2_unique {a b n : ℕ} (h1 : 2 ^ a ≤ n) (h2 : n < 2 ^ (a + 1))
    (h3 : 2 ^ b ≤ n) (h4 : n < 2 ^ (b + 1)) : a = b := by
  by_contra hne
  rcases Nat.lt_or_ge a b with h | h
  · have hab : a + 1 ≤ b := h
    have : (2:ℕ) ^ (a + 1) ≤ 2 ^ b := Nat.pow_le_pow_right (by norm_num) hab
    omega
  · have hba : b < a := lt_of_le_of_ne h fun e => hne e.symm
    have hba1 : b + 1 ≤ a := hba
    have : (2:ℕ) ^ (b + 1) ≤ 2 ^ a := Nat.pow_le_pow_right (by norm_num) hba1
    omega

/-- Mantissa rounding of an exact quotient returns it unchanged. -/
theorem roundMant_mul (M d : ℕ) (hd : 0 < d) : roundMant (M * d) d = M := by
  unfold roundMant
  have h1 : M * d / d = M := Nat.mul_div_cancel M hd
  have h2 : M * d % d = 0 := Nat.mul_mod_left M d
  simp [h1, h2, hd]

/-- Rounding a quotient that is exactly a positive integer below `2 ^ 53`
is exact: the resulting double has mantissa `N * 2 ^ (52 - ⌊log₂ N⌋)`
and exponent `⌊log₂ N⌋ - 52`, hence value exactly `N`. -/
theorem roundQ_exact (N d : ℕ) (hN : 0 < N) (hN53 : N < 2 ^ 53) (hd : 0 < d) :
    roundQ (N * d) d
      = (N * 2 ^ (52 - log2fuel 512 N), (log2fuel 512 N : ℤ) - 52) := by
  have hN512 : N < 2 ^ 512 :=
    lt_of_lt_of_le hN53 (Nat.pow_le_pow_right (by norm_num) (by norm_num))
  obtain ⟨hL1, hL2⟩ := log2fuel_spec 512 N hN hN512
  set L := log2fuel 512 N with hLdef
  have hL52 : L ≤ 52 := by
    by_contra hgt
    have h53L : 53 ≤ L := by omega
    have : (2:ℕ) ^ 53 ≤ 2 ^ L := Nat.pow_le_pow_right (by norm_num) h53L
    omega
  have hdiv : N * d * 2 ^ 128 / d = N * 2 ^ 128 := by
    rw [show N * d * 2 ^ 128 = N * 2 ^ 128 * d by ring]
    exact Nat.mul_div_cancel _ hd
  have hbig : log2fuel 512 (N * 2 ^ 128) = L + 128 := by
    have g0 : 0 < N * 2 ^ 128 := Nat.mul_pos hN (pow_pos (by norm_num) 128)
    have gbound : N * 2 ^ 128 < 2 ^ 512 := by
      calc N * 2 ^ 128 < 2 ^ 53 * 2 ^ 128 :=
            mul_lt_mul_of_pos_right hN53 (pow_pos (by norm_num) 128)
        _ = 2 ^ 181 := by rw [← pow_add]
        _ ≤ 2 ^ 512 := Nat.pow_le_pow_right (by norm_num) (by norm_num)
    obtain ⟨g1, g2⟩ := log2fuel_spec 512 (N * 2 ^ 128) g0 gbound
    have h1 : 2 ^ (L + 128) ≤ N * 2 ^ 128 := by
      rw [pow_add]
      exact Nat.mul_le_mul_right _ hL1
    have h2 : N * 2 ^ 128 < 2 ^ (L + 128 + 1) := by
      rw [show L + 128 + 1 = (L + 1) + 128 by omega, pow_add]
      exact mul_lt_mul_of_pos_right hL2 (pow_pos (by norm_num) 128)
    exact log2_unique g1 g2 h1 h2
  have hE : ilog2 (N * d) d = (L : ℤ) := by
    unfold ilog2
    rw [hdiv, hbig]
    push_cast
    ring
  unfold roundQ
  rw [hE]
  have hp : (0:ℤ) ≤ 52 - (L:ℤ) := by omega
  rw [if_pos hp]
  have hpt : ((52 : ℤ) - (L:ℤ)).toNat = 52 - L := by omega
  rw [hpt, show N * d * 2 ^ (52 - L) = (N * 2 ^ (52 - L)) * d by ring,
    roundMant_mul _ _ hd]

/-- Truncating the exact double representing `M` gives back `M`. -/
theorem dfloor_exact (M Lp : ℕ) (h : Lp ≤ 52) :
    dfloor (M * 2 ^ (52 - Lp), (Lp : ℤ) - 52) = M := by
  rcases Nat.lt_or_ge Lp 52 with hlt | hge
  · have hneg : ¬ (0:ℤ) ≤ (Lp:ℤ) - 52 := by omega
    have ht : (-((Lp:ℤ) - 52)).toNat = 52 - Lp := by omega
    simp only [dfloor]
    rw [if_neg hneg, ht]
    exact Nat.mul_div_cancel M (pow_pos (by norm_num) _)
  · have heq : Lp = 52 := by omega
    subst heq
    simp [dfloor]

/-- Whenever the original width divides the requested width and the
product fits in 53 bits, the binary64 computation of bot.py lines
117-119 agrees with the exact clamped floor formula. -/
theorem heightCalc_dvd (W H w : ℕ) (hW : 0 < W) (hH : 0 < H) (hw : 10 ≤ w)
    (hw2 : w ≤ 12000) (hdvd : W ∣ w) (hb : H * (w / W) < 2 ^ 53) :
    heightCalc W H w = max 1 (H * w / W) := by
  obtain ⟨k, hk⟩ := hdvd
  have hkpos : 0 < k := by
    rcases Nat.eq_zero_or_pos k with h0 | h
    · subst h0
      omega
    · exact h
  have hkdiv : w / W = k := by
    rw [hk]
    exact Nat.mul_div_cancel_left k hW
  have hkle : k ≤ w := by
    rw [hk]
    exact Nat.le_mul_of_pos_left k hW
  have hk12 : k ≤ 12000 := le_trans hkle hw2
  have hk53 : k < 2 ^ 53 := lt_of_le_of_lt hk12 (by norm_num)
  have h1 : roundQ w W = (k * 2 ^ (52 - log2fuel 512 k), (log2fuel 512 k : ℤ) - 52) := by
    rw [hk, mul_comm W k]
    exact roundQ_exact k W hkpos hk53 hW
  have hk14 : k < 2 ^ 14 := lt_of_le_of_lt hk12 (by norm_num)
  obtain ⟨l1, l2⟩ := log2fuel_spec 512 k hkpos
    (lt_of_lt_of_le hk14 (Nat.pow_le_pow_right (by norm_num) (by norm_num)))
  set L := log2fuel 512 k with hL
  have hL13 : L ≤ 13 := by
    by_contra hgt
    have h14 : 14 ≤ L := by omega
    have : (2:ℕ) ^ 14 ≤ 2 ^ L := Nat.pow_le_pow_right (by norm_num) h14
    omega
  have hHk : 0 < H * k := Nat.mul_pos hH hkpos
  have hHk53 : H * k < 2 ^ 53 := by
    rw [hkdiv] at hb
    exact hb
  have h2 : roundMulNat H (k * 2 ^ (52 - L), (L:ℤ) - 52)
      = ((H * k) * 2 ^ (52 - log2fuel 512 (H * k)), (log2fuel 512 (H * k) : ℤ) - 52) := by
    have hneg : ¬ (0:ℤ) ≤ (L:ℤ) - 52 := by omega
    have ht : (-((L:ℤ) - 52)).toNat = 52 - L := by omega
    simp only [roundMulNat]
    rw [if_neg hneg, ht, show H * (k * 2 ^ (52 - L)) = (H * k) * 2 ^ (52 - L) by ring]
    exact roundQ_exact (H * k) (2 ^ (52 - L)) hHk hHk53 (pow_pos (by norm_num) _)
  obtain ⟨m1, m2⟩ := log2fuel_spec 512 (H * k) hHk
    (lt_of_lt_of_le hHk53 (Nat.pow_le_pow_right (by norm_num) (by norm_num)))
  set L2 := log2fuel 512 (H * k) with hL2def
  have hL2le : L2 ≤ 52 := by
    by_contra hgt
    have h53 : 53 ≤ L2 := by omega
    have : (2:ℕ) ^ 53 ≤ 2 ^ L2 := Nat.pow_le_pow_right (by norm_num) h53
    omega
  unfold heightCalc heightRaw
  rw [h1, h2, dfloor_exact _ _ hL2le]
  have hrhs : H * w / W = H * k := by
    rw [hk, show H * (W * k) = (H * k) * W by ring]
    exact Nat.mul_div_cancel _ hW
  rw [hrhs, if_neg (by omega)]
  omega

/-! ### Behaviour of the resize handler on a parsed, in-range width -/

/-- For any reply message whose text parses to an in-range width, the
handler makes exactly one resize call, on the stored image with the
parsed width and the binary64 height, whatever the resize, save and
send collaborators then do. -/
theorem resizeCalls_spec (rz : Img → ℕ → ℕ → Except String Img)
    (sv : Img → String → Except String ByteData) (sd : ByteData → Except String Unit)
    (t : String) (b : Bool) (img : Img) (fmt : Option String) (w : ℤ)
    (hp : parseIntPy t = some w) (h10 : 10 ≤ w) (h12 : w ≤ 12000) :
    (handle_resize_request rz sv sd ⟨t, some ⟨b⟩⟩ ⟨some img, fmt⟩).resizeCalls
      = [(img, w.toNat, heightCalc img.width img.height w.toNat)] := by
  unfold handle_resize_request
  simp only [hp]
  rw [if_neg (by omega)]
  cases h1 : rz img w.toNat (heightCalc img.width img.height w.toNat) with
  | error e => simp [h1]
  | ok r =>
    simp only [h1]
    cases h2 : sv r (fmt.getD "JPEG") with
    | error e => simp [h2]
    | ok bs =>
      simp only [h2]
      cases h3 : sd bs with
      | error e => simp [h3]
      | ok u => simp [h3]

/-- A resize-operation failure is caught: apology reply, session kept. -/
theorem resize_error_result (sv : Img → String → Except String ByteData)
    (sd : ByteData → Except String Unit) (t : String) (b : Bool) (img : Img)
    (fmt : Option String) (w : ℤ) (e : String)
    (hp : parseIntPy t = some w) (h10 : 10 ≤ w) (h12 : w ≤ 12000) :
    handle_resize_request (fun _ _ _ => Except.error e) sv sd ⟨t, some ⟨b⟩⟩ ⟨some img, fmt⟩
      = ⟨⟨some img, fmt⟩, [Reply.text "Sorry, resizing failed 😓"],
         [(img, w.toNat, heightCalc img.width img.height w.toNat)], .ok⟩ := by
  unfold handle_resize_request
  simp only [hp]
  rw [if_neg (by omega)]


/-! ### The claims -/

/-- Claim C1 fails as stated: for the pending image with original
dimensions (W, H) = (11, 55) and accepted width w = 12, the handler
passes height 59 to the resize operation, while
max 1 ⌊H·w/W⌋ = max 1 ⌊660/11⌋ = 60: the binary64 evaluation of
`int(img.height * (width / img.width))` drops below the exact
quotient. -/
theorem C1_counterexample :
    (handle_resize_request rzOk svOk sdOk ⟨"12", some ⟨true⟩⟩
        ⟨some ⟨11, 55, some "JPEG"⟩, some "JPEG"⟩).resizeCalls
      = [(⟨11, 55, some "JPEG"⟩, 12, 59)]
    ∧ 59 ≠ max 1 (55 * 12 / 11) := by
  constructor
  · decide
  · decide

/-- Claim C1, amended: the height passed to the resize operation is the
binary64 value `int(H * (w / W))` clamped to ≥ 1, which equals the
exact `max 1 ⌊H·w/W⌋` whenever the computation is exact — in particular
whenever the original width divides the accepted target width and the
product fits in 53 bits — but not in general. -/
theorem C1_theorem (rz : Img → ℕ → ℕ → Except String Img)
    (sv : Img → String → Except String ByteData) (sd : ByteData → Except String Unit)
    (t : String) (b : Bool) (img : Img) (fmt : Option String) (w : ℤ)
    (hp : parseIntPy t = some w) (h10 : 10 ≤ w) (h12 : w ≤ 12000)
    (hW : 0 < img.width) (hH : 0 < img.height)
    (hdvd : img.width ∣ w.toNat)
    (hb : img.height * (w.toNat / img.width) < 2 ^ 53) :
    (handle_resize_request rz sv sd ⟨t, some ⟨b⟩⟩ ⟨some img, fmt⟩).resizeCalls
      = [(img, w.toNat, max 1 (img.height * w.toNat / img.width))] := by
  rw [resizeCalls_spec rz sv sd t b img fmt w hp h10 h12,
    heightCalc_dvd img.width img.height w.toNat hW hH (by omega) (by omega) hdvd hb]

/-- Witness for the amended claim C1 at the concrete input
(W, H, w) = (100, 50, 200): the resize call receives height 100. -/
theorem C1_witness :
    (parseIntPy "200" = some 200 ∧ (100 : ℕ) ∣ (200 : ℤ).toNat
      ∧ 50 * ((200 : ℤ).toNat / 100) < 2 ^ 53)
    ∧ (handle_resize_request rzOk svOk sdOk ⟨"200", some ⟨true⟩⟩
          ⟨some ⟨100, 50, none⟩, none⟩).resizeCalls
      = [((⟨100, 50, none⟩ : Img), (200 : ℤ).toNat, max 1 (50 * (200 : ℤ).toNat / 100))] :=
  ⟨⟨by decide, by decide, by decide⟩,
   C1_theorem rzOk svOk sdOk "200" true ⟨100, 50, none⟩ none 200 (by decide) (by decide)
     (by decide) (by decide) (by decide) (by decide) (by decide)⟩

/-- Claim C2 fails as stated: bot.py line 101 only checks that the text
message is a reply to some message; here the replied-to message was not
sent by the bot (`fromBot = false`), yet resize processing runs and a
resize call is made. -/
theorem C2_counterexample :
    (handle_resize_request rzOk svOk sdOk ⟨"500", some ⟨false⟩⟩
        ⟨some ⟨800, 600, some "PNG"⟩, some "PNG"⟩).resizeCalls
      = [(⟨800, 600, some "PNG"⟩, 500, 375)] := by
  decide

/-- Claim C2, amended: the handler acts on any text that is a reply to
some prior message — its behaviour is independent of whether the
replied-to message was sent by the bot — and only non-reply texts are
silently ignored. -/
theorem C2_theorem (rz : Img → ℕ → ℕ → Except String Img)
    (sv : Img → String → Except String ByteData) (sd : ByteData → Except String Unit)
    (t : String) (ud : Session) (b b' : Bool) :
    handle_resize_request rz sv sd ⟨t, some ⟨b⟩⟩ ud
      = handle_resize_request rz sv sd ⟨t, some ⟨b'⟩⟩ ud
    ∧ handle_resize_request rz sv sd ⟨t, none⟩ ud = ⟨ud, [], [], .ok⟩ :=
  ⟨rfl, rfl⟩

/-- Claim C3 fails as stated: a failing attachment fetch in
`handle_photo` (bot.py lines 73-77 are outside any try/except) is not
caught at the handler boundary: the exception propagates out of the
handler and no user-visible apology is produced there. -/
theorem C3_counterexample :
    (handle_photo (fun _ => Except.error "network down") (fun _ => Except.ok ⟨32, 32, none⟩)
        ⟨[⟨5⟩], none⟩ ⟨none, none⟩).outcome = Outcome.raised
    ∧ (handle_photo (fun _ => Except.error "network down") (fun _ => Except.ok ⟨32, 32, none⟩)
        ⟨[⟨5⟩], none⟩ ⟨none, none⟩).replies = [] :=
  ⟨rfl, rfl⟩

/-- Claim C3, amended: only the image-decode step of the photo handler
(bot.py lines 79-85) and the resize step of the resize handler (lines
121-126) are caught at the handler boundary and converted into apology
replies with the session unchanged; attachment-fetch failures (lines
73-76), encode failures (line 130) and send failures (line 134)
propagate out of the handler, to be caught by the webhook bridge. -/
theorem C3_theorem :
    (∀ (p : FileRef) (e : String) (dec : ByteData → Except String Img) (ud : Session),
      handle_photo (fun _ => Except.error e) dec ⟨[p], none⟩ ud = ⟨ud, [], [], .raised⟩)
    ∧ (∀ (p : FileRef) (bs : ByteData) (e : String) (ud : Session),
      handle_photo (fun _ => Except.ok bs) (fun _ => Except.error e) ⟨[p], none⟩ ud
        = ⟨ud, [Reply.text "Sorry, I couldn't process this image 😔"], [], .ok⟩)
    ∧ (∀ (e : String) (sv : Img → String → Except String ByteData)
        (sd : ByteData → Except String Unit) (img : Img) (fmt : Option String) (b : Bool),
      handle_resize_request (fun _ _ _ => Except.error e) sv sd ⟨"100", some ⟨b⟩⟩ ⟨some img, fmt⟩
        = ⟨⟨some img, fmt⟩, [Reply.text "Sorry, resizing failed 😓"],
           [(img, 100, heightCalc img.width img.height 100)], .ok⟩)
    ∧ (∀ (e : String) (sd : ByteData → Except String Unit) (img : Img) (fmt : Option String) (b : Bool),
      handle_resize_request rzOk (fun _ _ => Except.error e) sd ⟨"100", some ⟨b⟩⟩ ⟨some img, fmt⟩
        = ⟨⟨some img, fmt⟩, [], [(img, 100, heightCalc img.width img.height 100)], .raised⟩)
    ∧ (∀ (e : String) (img : Img) (fmt : Option String) (b : Bool),
      handle_resize_request rzOk svOk (fun _ => Except.error e) ⟨"100", some ⟨b⟩⟩ ⟨some img, fmt⟩
        = ⟨⟨some img, fmt⟩, [], [(img, 100, heightCalc img.width img.height 100)], .raised⟩) := by
  refine ⟨?_, ?_, ?_, ?_, ?_⟩
  · intro p e dec ud
    rfl
  · intro p bs e ud
    rfl
  · intro e sv sd img fmt b
    exact resize_error_result sv sd "100" b img fmt 100 e (by decide) (by decide) (by decide)
  · intro e sd img fmt b
    rfl
  · intro e img fmt b
    rfl

/-- Claim C4: a resize request (a text reply, with a pending image
stored) whose text does not parse as an integer, or parses outside
[10, 12000], gets the range-error reply and leaves the session entry
(image and format) unchanged. -/
theorem C4_theorem (rz : Img → ℕ → ℕ → Except String Img)
    (sv : Img → String → Except String ByteData) (sd : ByteData → Except String Unit)
    (t : String) (b : Bool) (img : Img) (fmt : Option String)
    (h : parseIntPy t = none ∨ ∃ w, parseIntPy t = some w ∧ (w < 10 ∨ w > 12000)) :
    handle_resize_request rz sv sd ⟨t, some ⟨b⟩⟩ ⟨some img, fmt⟩
      = ⟨⟨some img, fmt⟩, [Reply.text "Please send a number between 10 and 12000."], [], .ok⟩ := by
  unfold handle_resize_request
  rcases h with hnone | ⟨w, hw, hr⟩
  · simp [hnone]
  · simp only [hw]
    rw [if_pos hr]

/-- Witness for claim C4 at the non-numeric text "abc". -/
theorem C4_witness :
    (parseIntPy "abc" = none ∨ ∃ w, parseIntPy "abc" = some w ∧ (w < 10 ∨ w > 12000))
    ∧ handle_resize_request rzOk svOk sdOk ⟨"abc", some ⟨true⟩⟩ ⟨some ⟨64, 64, none⟩, none⟩
      = ⟨⟨some ⟨64, 64, none⟩, none⟩, [Reply.text "Please send a number between 10 and 12000."], [], .ok⟩ :=
  ⟨Or.inl (by decide),
   C4_theorem rzOk svOk sdOk "abc" true ⟨64, 64, none⟩ none (Or.inl (by decide))⟩

/-- Claim C5: after a resize request completes with a successful send,
both session keys are absent, and a further resize request by the same
user (with no new image) receives the "no recent image" reply and makes
no resize call. -/
theorem C5_theorem (rz : Img → ℕ → ℕ → Except String Img)
    (sv : Img → String → Except String ByteData) (sd : ByteData → Except String Unit)
    (t : String) (b : Bool) (img : Img) (fmt : Option String)
    (w : ℤ) (resized : Img) (bytes : ByteData)
    (hp : parseIntPy t = some w) (h10 : 10 ≤ w) (h12 : w ≤ 12000)
    (hrz : rz img w.toNat (heightCalc img.width img.height w.toNat) = Except.ok resized)
    (hsv : sv resized (fmt.getD "JPEG") = Except.ok bytes)
    (hsd : sd bytes = Except.ok ()) :
    (handle_resize_request rz sv sd ⟨t, some ⟨b⟩⟩ ⟨some img, fmt⟩).session = ⟨none, none⟩
    ∧ ∀ (rz₂ : Img → ℕ → ℕ → Except String Img) (sv₂ : Img → String → Except String ByteData)
        (sd₂ : ByteData → Except String Unit) (t₂ : String) (b₂ : Bool),
        handle_resize_request rz₂ sv₂ sd₂ ⟨t₂, some ⟨b₂⟩⟩ ⟨none, none⟩
          = ⟨⟨none, none⟩, [Reply.text "No recent image found. Please send a photo first."], [], .ok⟩ := by
  constructor
  · unfold handle_resize_request
    simp only [hp]
    rw [if_neg (by omega)]
    simp only [hrz, hsv, hsd]
  · intro rz₂ sv₂ sd₂ t₂ b₂
    rfl

/-- Witness for claim C5 on a concrete successful resize run. -/
theorem C5_witness :
    (parseIntPy "200" = some 200 ∧ (10:ℤ) ≤ 200 ∧ (200:ℤ) ≤ 12000
      ∧ rzOk ⟨100, 50, none⟩ (200:ℤ).toNat (heightCalc 100 50 (200:ℤ).toNat)
          = Except.ok ⟨200, 100, none⟩
      ∧ svOk ⟨200, 100, none⟩ ((none : Option String).getD "JPEG") = Except.ok ⟨0⟩
      ∧ sdOk ⟨0⟩ = Except.ok ())
    ∧ ((handle_resize_request rzOk svOk sdOk ⟨"200", some ⟨true⟩⟩
          ⟨some ⟨100, 50, none⟩, none⟩).session = ⟨none, none⟩
       ∧ ∀ (rz₂ : Img → ℕ → ℕ → Except String Img) (sv₂ : Img → String → Except String ByteData)
          (sd₂ : ByteData → Except String Unit) (t₂ : String) (b₂ : Bool),
          handle_resize_request rz₂ sv₂ sd₂ ⟨t₂, some ⟨b₂⟩⟩ ⟨none, none⟩
            = ⟨⟨none, none⟩, [Reply.text "No recent image found. Please send a photo first."], [], .ok⟩) :=
  ⟨⟨by decide, by decide, by decide, by rfl, by rfl, by rfl⟩,
   C5_theorem rzOk svOk sdOk "200" true ⟨100, 50, none⟩ none 200 ⟨200, 100, none⟩ ⟨0⟩
     (by decide) (by decide) (by decide) (by rfl) (by rfl) (by rfl)⟩

/-- Claim C6: successfully processing a second image for the same user
overwrites both stored session values with the second image's, and a
subsequent resize request makes its resize call on the second image,
with the height computed from the second image's dimensions. -/
theorem C6_theorem (p₁ p₂ : FileRef) (b₁ b₂ : ByteData) (imgA imgB : Img) (ud : Session)
    (rz : Img → ℕ → ℕ → Except String Img) (sv : Img → String → Except String ByteData)
    (sd : ByteData → Except String Unit) (t : String) (isb : Bool) (w : ℤ)
    (hp : parseIntPy t = some w) (h10 : 10 ≤ w) (h12 : w ≤ 12000) :
    (handle_photo (fun _ => Except.ok b₂) (fun _ => Except.ok imgB) ⟨[p₂], none⟩
        ((handle_photo (fun _ => Except.ok b₁) (fun _ => Except.ok imgA) ⟨[p₁], none⟩ ud).session)).session
      = ⟨some imgB, some (pyOr imgB.format "JPEG")⟩
    ∧ (handle_resize_request rz sv sd ⟨t, some ⟨isb⟩⟩
        ⟨some imgB, some (pyOr imgB.format "JPEG")⟩).resizeCalls
      = [(imgB, w.toNat, heightCalc imgB.width imgB.height w.toNat)] :=
  ⟨rfl, resizeCalls_spec rz sv sd t isb imgB (some (pyOr imgB.format "JPEG")) w hp h10 h12⟩

/-- Witness for claim C6: a 4000×3000 JPEG followed by an 800×600 PNG;
the session holds the PNG and a resize request for width 100 resizes
the PNG. -/
theorem C6_witness :
    (parseIntPy "100" = some 100 ∧ (10:ℤ) ≤ 100 ∧ (100:ℤ) ≤ 12000)
    ∧ ((handle_photo (fun _ => Except.ok ⟨21⟩) (fun _ => Except.ok ⟨800, 600, some "PNG"⟩)
          ⟨[⟨2⟩], none⟩
          ((handle_photo (fun _ => Except.ok ⟨20⟩) (fun _ => Except.ok ⟨4000, 3000, some "JPEG"⟩)
            ⟨[⟨1⟩], none⟩ ⟨none, none⟩).session)).session
        = ⟨some ⟨800, 600, some "PNG"⟩, some (pyOr (some "PNG") "JPEG")⟩
      ∧ (handle_resize_request rzOk svOk sdOk ⟨"100", some ⟨true⟩⟩
          ⟨some ⟨800, 600, some "PNG"⟩, some (pyOr (some "PNG") "JPEG")⟩).resizeCalls
        = [((⟨800, 600, some "PNG"⟩ : Img), (100:ℤ).toNat, heightCalc 800 600 (100:ℤ).toNat)]) :=
  ⟨⟨by decide, by decide, by decide⟩,
   C6_theorem ⟨1⟩ ⟨2⟩ ⟨20⟩ ⟨21⟩ ⟨4000, 3000, some "JPEG"⟩ ⟨800, 600, some "PNG"⟩ ⟨none, none⟩
     rzOk svOk sdOk "100" true 100 (by decide) (by decide) (by decide)⟩

/-- Claim C7: for a webhook POST carrying a well-formed update payload
(JSON content type, truthy parsed body, decodable update), the HTTP
status is 200 and the update was submitted to the event loop, whatever
the processing outcome (completion, timeout, or any other exception). -/
theorem C7_theorem (j : JsonData) (dj : JsonData → Option UpdateV)
    (proc : UpdateV → ProcOutcome) (u : UpdateV)
    (ht : j.truthy = true) (hd : dj j = some u) :
    (webhook (some "application/json") (some j) dj proc).status = 200
    ∧ (webhook (some "application/json") (some j) dj proc).submitted = true := by
  cases hpu : proc u with
  | ok => constructor <;> simp [webhook, ht, hd, hpu]
  | timeout => constructor <;> simp [webhook, ht, hd, hpu]
  | exn => constructor <;> simp [webhook, ht, hd, hpu]

/-- Witness for claim C7 with a processing outcome that times out. -/
theorem C7_witness :
    ((⟨true, 0⟩ : JsonData).truthy = true
      ∧ (fun _ : JsonData => some (⟨7⟩ : UpdateV)) ⟨true, 0⟩ = some ⟨7⟩)
    ∧ ((webhook (some "application/json") (some ⟨true, 0⟩) (fun _ => some ⟨7⟩)
          (fun _ => ProcOutcome.timeout)).status = 200
       ∧ (webhook (some "application/json") (some ⟨true, 0⟩) (fun _ => some ⟨7⟩)
          (fun _ => ProcOutcome.timeout)).submitted = true) :=
  ⟨⟨rfl, rfl⟩,
   C7_theorem ⟨true, 0⟩ (fun _ => some ⟨7⟩) (fun _ => ProcOutcome.timeout) ⟨7⟩ rfl rfl⟩

/-- Claim C8: a webhook POST with JSON content type whose body is
unparsable JSON, or is JSON that does not decode into a valid update,
gets response 200 and submits nothing to the event loop. -/
theorem C8_theorem (jsonBody : Option JsonData) (dj : JsonData → Option UpdateV)
    (proc : UpdateV → ProcOutcome)
    (h : jsonBody = none ∨ ∃ j, jsonBody = some j ∧ dj j = none) :
    webhook (some "application/json") jsonBody dj proc = ⟨200, false, false⟩ := by
  unfold webhook
  rw [if_neg (by simp)]
  rcases h with hnone | ⟨j, hj, hd⟩
  · rw [hnone]
  · rw [hj]
    by_cases ht : j.truthy
    · simp [ht, hd]
    · simp [ht]

/-- Witness for claim C8 with an unparsable body. -/
theorem C8_witness :
    ((none : Option JsonData) = none
      ∨ ∃ j, (none : Option JsonData) = some j ∧ (fun _ : JsonData => (none : Option UpdateV)) j = none)
    ∧ webhook (some "application/json") none (fun _ => (none : Option UpdateV))
        (fun _ => ProcOutcome.ok) = ⟨200, false, false⟩ :=
  ⟨Or.inl rfl,
   C8_theorem none (fun _ => none) (fun _ => ProcOutcome.ok) (Or.inl rfl)⟩

/-- Claim C9: a webhook POST whose content-type header is not
`application/json` gets a 400 response and no processing occurs. -/
theorem C9_theorem (ct : Option String) (jsonBody : Option JsonData)
    (dj : JsonData → Option UpdateV) (proc : UpdateV → ProcOutcome)
    (h : ct ≠ some "application/json") :
    webhook ct jsonBody dj proc = ⟨400, false, false⟩ := by
  unfold webhook
  rw [if_pos h]

/-- Witness for claim C9 with content type `text/plain`. -/
theorem C9_witness :
    (some "text/plain" ≠ some "application/json")
    ∧ webhook (some "text/plain") (some ⟨true, 0⟩) (fun _ => some ⟨7⟩)
        (fun _ => ProcOutcome.ok) = ⟨400, false, false⟩ :=
  ⟨by decide,
   C9_theorem (some "text/plain") (some ⟨true, 0⟩) (fun _ => some ⟨7⟩)
     (fun _ => ProcOutcome.ok) (by decide)⟩

/-- Claim C10: the stored pending image is unchanged by resize
requests: a failed resize attempt leaves the session entry exactly as
it was, the resize call is made with the height computed from the
stored original dimensions, a retry after the failure makes its resize
call from the same original dimensions, and the stored copy equals the
decoded image. -/
theorem C10_theorem (img : Img) (fmt : Option String)
    (sv : Img → String → Except String ByteData) (sd : ByteData → Except String Unit)
    (e : String) (t : String) (b : Bool) (w : ℤ)
    (hp : parseIntPy t = some w) (h10 : 10 ≤ w) (h12 : w ≤ 12000) :
    (handle_resize_request (fun _ _ _ => Except.error e) sv sd ⟨t, some ⟨b⟩⟩ ⟨some img, fmt⟩).session
      = ⟨some img, fmt⟩
    ∧ (handle_resize_request (fun _ _ _ => Except.error e) sv sd ⟨t, some ⟨b⟩⟩ ⟨some img, fmt⟩).resizeCalls
      = [(img, w.toNat, heightCalc img.width img.height w.toNat)]
    ∧ (∀ rz₂ : Img → ℕ → ℕ → Except String Img,
        (handle_resize_request rz₂ sv sd ⟨t, some ⟨b⟩⟩
          ((handle_resize_request (fun _ _ _ => Except.error e) sv sd ⟨t, some ⟨b⟩⟩
              ⟨some img, fmt⟩).session)).resizeCalls
          = [(img, w.toNat, heightCalc img.width img.height w.toNat)])
    ∧ Img.copy img = img := by
  have hfail := resize_error_result sv sd t b img fmt w e hp h10 h12
  refine ⟨?_, ?_, ?_, rfl⟩
  · rw [hfail]
  · rw [hfail]
  · intro rz₂
    rw [hfail]
    exact resizeCalls_spec rz₂ sv sd t b img fmt w hp h10 h12

/-- Witness for claim C10: a failed resize of a 640×480 PNG at width
320 leaves the session unchanged and a retry resizes from 640×480. -/
theorem C10_witness :
    (parseIntPy "320" = some 320 ∧ (10:ℤ) ≤ 320 ∧ (320:ℤ) ≤ 12000)
    ∧ ((handle_resize_request (fun _ _ _ => Except.error "boom") svOk sdOk ⟨"320", some ⟨true⟩⟩
          ⟨some ⟨640, 480, some "PNG"⟩, some "PNG"⟩).session
        = ⟨some ⟨640, 480, some "PNG"⟩, some "PNG"⟩
      ∧ (handle_resize_request (fun _ _ _ => Except.error "boom") svOk sdOk ⟨"320", some ⟨true⟩⟩
          ⟨some ⟨640, 480, some "PNG"⟩, some "PNG"⟩).resizeCalls
        = [((⟨640, 480, some "PNG"⟩ : Img), (320:ℤ).toNat, heightCalc 640 480 (320:ℤ).toNat)]
      ∧ (∀ rz₂ : Img → ℕ → ℕ → Except String Img,
          (handle_resize_request rz₂ svOk sdOk ⟨"320", some ⟨true⟩⟩
            ((handle_resize_request (fun _ _ _ => Except.error "boom") svOk sdOk ⟨"320", some ⟨true⟩⟩
                ⟨some ⟨640, 480, some "PNG"⟩, some "PNG"⟩).session)).resizeCalls
            = [((⟨640, 480, some "PNG"⟩ : Img), (320:ℤ).toNat, heightCalc 640 480 (320:ℤ).toNat)])
      ∧ Img.copy ⟨640, 480, some "PNG"⟩ = ⟨640, 480, some "PNG"⟩) :=
  ⟨⟨by decide, by decide, by decide⟩,
   C10_theorem ⟨640, 480, some "PNG"⟩ (some "PNG") svOk sdOk "boom" "320" true 320
     (by decide) (by decide) (by decide)⟩
